import Mathlib

/-!
Shallow embedding of `src/app.py`, a Flask + LINE-bot backend with three
SQLAlchemy tables (`User`, `Checkin`, `LineReply`), five direct REST
endpoints (`/api/checkin`, `/api/checkins/<user_id>`, `/api/line_reply`,
`/api/register`, `/api/users`) and a webhook flow (`/callback` dispatching
`MessageEvent`/`TextMessage` to `handle_message`).

Modelling decisions:
* The database is a `DB` record of three row lists plus auto-increment
  counters; `Model.query.filter_by(...).first()` becomes `List.find?` on the
  insertion-ordered row list, `.all()` becomes `List.filter`, and
  `db.session.add` + `commit` appends a row and bumps the counter.
* `datetime` values are a six-field `DateTime` record; `datetime.utcnow`
  becomes an explicit `now` argument. `strftime("%Y-%m-%d %H:%M:%S")` and
  `isoformat()` are implemented with zero padding.  Chronological comparison
  of datetimes is `dtLe`, via the lexicographic key `DateTime.key`.
* The external profile lookup `line_bot_api.get_profile(...).display_name`
  is an `Option String` argument: `some name` when the call succeeds,
  `none` when it raises anything (the Python `except:` is bare).
* The outbound `line_bot_api.reply_message` call is recorded in the `sent`
  list of the handler result; the boolean argument `sendOk` says whether
  that call succeeds.  `handle_message` has no try/except around it, so a
  failing send makes the handler raise: `raised := !sendOk`.
* `/callback` first evaluates `request.headers["X-Line-Signature"]`; when
  the header is missing, the werkzeug method `Headers.__getitem__` raises
  `BadRequestKeyError`, which Flask turns into a 400 response before any
  body parsing (the explicit `is None` / `abort(400)` guard covers the same
  outcome).  `handler.handle(body, signature)` verifies the HMAC signature
  and raises `InvalidSignatureError` on mismatch, which Flask turns into a
  500; the boolean `signatureValid` stands for the result of that check.
  An exception escaping `handle_message` (e.g. from `reply_message`)
  propagates through `handler.handle` and `callback` to a 500 as well.
-/

structure DateTime where
  year : Nat
  month : Nat
  day : Nat
  hour : Nat
  minute : Nat
  second : Nat
deriving DecidableEq, Repr

/-- Lexicographic key of a datetime; for in-range fields this orders
datetimes chronologically, matching Python `datetime` comparison. -/
def DateTime.key (d : DateTime) : Nat :=
  ((((d.year * 13 + d.month) * 32 + d.day) * 24 + d.hour) * 60 + d.minute) * 60 + d.second

/-- Chronological order on datetimes (Python `<=` on `datetime`). -/
def dtLe (a b : DateTime) : Prop := a.key ≤ b.key

instance (a b : DateTime) : Decidable (dtLe a b) :=
  inferInstanceAs (Decidable (a.key ≤ b.key))

def pad2 (n : Nat) : String := if n < 10 then "0" ++ toString n else toString n

def pad4 (n : Nat) : String :=
  if n < 10 then "000" ++ toString n
  else if n < 100 then "00" ++ toString n
  else if n < 1000 then "0" ++ toString n
  else toString n

/-- Python `checkin_time.strftime("%Y-%m-%d %H:%M:%S")`. -/
def strftimeYmdHMS (d : DateTime) : String :=
  pad4 d.year ++ "-" ++ pad2 d.month ++ "-" ++ pad2 d.day ++ " " ++
    pad2 d.hour ++ ":" ++ pad2 d.minute ++ ":" ++ pad2 d.second

/-- Python `checkin_time.isoformat()` (seconds precision). -/
def isoformat (d : DateTime) : String :=
  pad4 d.year ++ "-" ++ pad2 d.month ++ "-" ++ pad2 d.day ++ "T" ++
    pad2 d.hour ++ ":" ++ pad2 d.minute ++ ":" ++ pad2 d.second

/-- Row of table `user` (`class User(db.Model)`). -/
structure User where
  user_id : Nat
  line_user_id : String
  name : String
  created_at : DateTime
deriving DecidableEq, Repr

/-- Row of table `checkin` (`class Checkin(db.Model)`). -/
structure Checkin where
  checkin_id : Nat
  user_id : Nat
  checkin_time : DateTime
deriving DecidableEq, Repr

/-- Row of table `line_reply` (`class LineReply(db.Model)`). -/
structure LineReply where
  reply_id : Nat
  user_id : Nat
  reply_message : String
  reply_time : DateTime
deriving DecidableEq, Repr

/-- The relational store: rows in insertion order plus the auto-increment
primary-key counters. -/
structure DB where
  users : List User
  checkins : List Checkin
  line_replies : List LineReply
  nextUserId : Nat
  nextCheckinId : Nat
  nextReplyId : Nat
deriving DecidableEq, Repr

/-- Result of a JSON endpoint: final store, HTTP status, `message` body. -/
structure ApiResult where
  db : DB
  status : Nat
  message : String
deriving DecidableEq, Repr

/-- Endpoint `POST /api/checkin` (`def checkin()` in app.py).  The field
`line_user_id` of the JSON body may be absent (`none`);
`filter_by(line_user_id=None)` matches no row since the column is
`nullable=False`. -/
def checkin (s : DB) (now : DateTime) (line_user_id : Option String) : ApiResult :=
  match line_user_id with
  | none => { db := s, status := 404, message := "User not found" }
  | some lid =>
      match s.users.find? (fun u => u.line_user_id == lid) with
      | none => { db := s, status := 404, message := "User not found" }
      | some u =>
          { db := { s with
              checkins := s.checkins ++
                [{ checkin_id := s.nextCheckinId, user_id := u.user_id, checkin_time := now }],
              nextCheckinId := s.nextCheckinId + 1 },
            status := 200, message := "You have successfully checked in!" }

/-- Result of `GET /api/checkins/<int:user_id>`: the JSON body is the list of
`(checkin_id, checkin_time.isoformat())` pairs. -/
structure CheckinsResult where
  db : DB
  status : Nat
  checkins : List (Nat × String)
deriving DecidableEq, Repr

/-- Endpoint `GET /api/checkins/<int:user_id>` (`def get_checkins(user_id)`): no user
lookup at all, just `Checkin.query.filter_by(user_id=user_id).all()` and a
`jsonify` (which defaults to HTTP 200). -/
def get_checkins (s : DB) (user_id : Nat) : CheckinsResult :=
  { db := s, status := 200,
    checkins := (s.checkins.filter (fun c => c.user_id == user_id)).map
      (fun c => (c.checkin_id, isoformat c.checkin_time)) }

/-- Endpoint `POST /api/line_reply` (`def line_reply()`).  When `reply_message` is
absent the insert of a NULL into the `nullable=False` column makes
`db.session.commit()` raise; no row is persisted and Flask answers 500. -/
def line_reply (s : DB) (now : DateTime) (user_id : Option Nat)
    (reply_message : Option String) : ApiResult :=
  match s.users.find? (fun u => match user_id with | some i => u.user_id == i | none => false) with
  | none => { db := s, status := 404, message := "User not found" }
  | some u =>
      match reply_message with
      | some m =>
          { db := { s with
              line_replies := s.line_replies ++
                [{ reply_id := s.nextReplyId, user_id := u.user_id,
                   reply_message := m, reply_time := now }],
              nextReplyId := s.nextReplyId + 1 },
            status := 200, message := "Reply sent successfully!" }
      | none => { db := s, status := 500, message := "" }

/-- Endpoint `POST /api/register` (`def register_user()`).  Python truthiness: a field
is missing when it is absent (`None`) or the empty string. -/
def register_user (s : DB) (now : DateTime) (line_user_id name : Option String) : ApiResult :=
  match line_user_id, name with
  | some lid, some nm =>
      if lid = "" ∨ nm = "" then
        { db := s, status := 400, message := "Missing line_user_id or name" }
      else
        match s.users.find? (fun u => u.line_user_id == lid) with
        | some _ => { db := s, status := 200, message := "User already registered" }
        | none =>
            { db := { s with
                users := s.users ++
                  [{ user_id := s.nextUserId, line_user_id := lid, name := nm, created_at := now }],
                nextUserId := s.nextUserId + 1 },
              status := 201, message := "User registered successfully" }
  | _, _ => { db := s, status := 400, message := "Missing line_user_id or name" }

/-- Result of `GET /api/users`: the list of `(user_id, line_user_id, name)`. -/
structure UsersResult where
  db : DB
  status : Nat
  users : List (Nat × String × String)
deriving DecidableEq, Repr

/-- Endpoint `GET /api/users` (`def get_users()`). -/
def get_users (s : DB) : UsersResult :=
  { db := s, status := 200,
    users := s.users.map (fun u => (u.user_id, u.line_user_id, u.name)) }

/-- An inbound LINE `MessageEvent` carrying a `TextMessage`. -/
structure MessageEvent where
  user_id : String
  text : String
  reply_token : String
deriving DecidableEq, Repr

/-- One invocation of `line_bot_api.reply_message(token, TextSendMessage(text))`. -/
structure SentReply where
  token : String
  text : String
deriving DecidableEq, Repr

/-- Outcome of `handle_message`: final store, the reply calls it made, and
whether an exception escaped the handler. -/
structure HandleResult where
  db : DB
  sent : List SentReply
  raised : Bool
deriving DecidableEq, Repr

/-- The characters CPython `str.isspace()` accepts — exactly the set that
`str.strip()` removes: the ASCII whitespace 0x09-0x0D and 0x20, the
separator controls 0x1C-0x1F, NEL 0x85, NBSP 0xA0, the Ogham space 0x1680,
the typographic spaces 0x2000-0x200A, the line and paragraph separators
0x2028/0x2029, the narrow no-break space 0x202F, the medium mathematical
space 0x205F, and the ideographic (fullwidth) space 0x3000. -/
def isPySpace (c : Char) : Bool :=
  (9 ≤ c.toNat && c.toNat ≤ 13) || (28 ≤ c.toNat && c.toNat ≤ 31) ||
  c.toNat = 32 || c.toNat = 133 || c.toNat = 160 || c.toNat = 5760 ||
  (8192 ≤ c.toNat && c.toNat ≤ 8202) || c.toNat = 8232 || c.toNat = 8233 ||
  c.toNat = 8239 || c.toNat = 8287 || c.toNat = 12288

/-- Python `str.strip()`: drop leading and trailing whitespace. -/
def pyStrip (t : String) : String :=
  ⟨((t.data.dropWhile isPySpace).reverse.dropWhile isPySpace).reverse⟩

/-- Python `str.lower()` on the ASCII letters; other characters are left
unchanged.  This restriction cannot affect the command dispatch: the two
tokens are CJK strings, CJK has no case, and no character lowercases to a
CJK code point, so a normalized text equals a token in this model exactly
when it does under full Unicode lowercasing. -/
def pyLower (t : String) : String :=
  ⟨t.data.map (fun c => if 'A' ≤ c ∧ c ≤ 'Z' then Char.ofNat (c.toNat + 32) else c)⟩

/-- Normalization `event.message.text.strip().lower()` from `handle_message`. -/
def normalizeText (t : String) : String := pyLower (pyStrip t)

/-- The `display_name` as computed by the try/except around
`line_bot_api.get_profile`: the display name of the profile on success, the
constant `"LINE User"` when the lookup raises anything. -/
def resolveDisplayName (profile : Option String) : String :=
  match profile with
  | some n => n
  | none => "LINE User"

/-- Lines 280-293 of app.py: look the sender up by `line_user_id`; when
absent, create the `User` row with the resolved or placeholder name.
Returns the updated store and the `user_id` used by the command dispatch. -/
def resolveUser (s : DB) (now : DateTime) (profile : Option String) (lid : String) : DB × Nat :=
  match s.users.find? (fun u => u.line_user_id == lid) with
  | some u => (s, u.user_id)
  | none =>
      ({ s with
          users := s.users ++
            [{ user_id := s.nextUserId, line_user_id := lid,
               name := resolveDisplayName profile, created_at := now }],
          nextUserId := s.nextUserId + 1 },
        s.nextUserId)

/-- Handler `def handle_message(event)` in app.py: user resolution, command dispatch
on `event.message.text.strip().lower()`, then one `reply_message` call. -/
def handle_message (s : DB) (now : DateTime) (profile : Option String) (sendOk : Bool)
    (ev : MessageEvent) : HandleResult :=
  let r := resolveUser s now profile ev.user_id
  let s1 := r.1
  let user_id := r.2
  let text := normalizeText ev.text
  if text = "查詢" then
    let checkins := s1.checkins.filter (fun c => c.user_id == user_id)
    let reply_text :=
      if checkins = [] then "❌ 你還沒有任何打卡紀錄喔。"
      else "📅 你的打卡紀錄：\n" ++
        String.intercalate "\n" (checkins.map (fun c => strftimeYmdHMS c.checkin_time))
    { db := s1, sent := [{ token := ev.reply_token, text := reply_text }], raised := !sendOk }
  else if text = "打卡" then
    { db := { s1 with
        checkins := s1.checkins ++
          [{ checkin_id := s1.nextCheckinId, user_id := user_id, checkin_time := now }],
        nextCheckinId := s1.nextCheckinId + 1 },
      sent := [{ token := ev.reply_token, text := "✅ 你已成功打卡！" }], raised := !sendOk }
  else
    { db := s1, sent := [{ token := ev.reply_token, text := "請輸入『打卡』或『查詢』來使用服務！" }],
      raised := !sendOk }

/-- HTTP outcome of the `/callback` route. -/
inductive HttpStatus where
  | ok200
  | badRequest400
  | serverError500
deriving DecidableEq, Repr

/-- Result of one `POST /callback`: final store, status, body, reply calls. -/
structure CallbackResult where
  db : DB
  status : HttpStatus
  body : String
  sent : List SentReply
deriving DecidableEq, Repr

/-- Route `def callback()` in app.py.  A missing `X-Line-Signature` header yields a
400 before any processing; a bad signature makes `handler.handle` raise
(Flask answers 500); an exception escaping `handle_message` also surfaces
as a 500; otherwise the route returns the body `OK` with status 200. -/
def callback (s : DB) (now : DateTime) (profile : Option String) (sendOk : Bool)
    (signatureHeader : Option String) (signatureValid : Bool) (ev : MessageEvent) :
    CallbackResult :=
  match signatureHeader with
  | none => { db := s, status := .badRequest400, body := "", sent := [] }
  | some _ =>
      if signatureValid then
        let r := handle_message s now profile sendOk ev
        if r.raised then { db := r.db, status := .serverError500, body := "", sent := r.sent }
        else { db := r.db, status := .ok200, body := "OK", sent := r.sent }
      else { db := s, status := .serverError500, body := "", sent := [] }

/-- State `t` extends state `s` by only appending rows: no row is updated or deleted. -/
def appendOnly (s t : DB) : Prop :=
  (∃ us, t.users = s.users ++ us) ∧
  (∃ cs, t.checkins = s.checkins ++ cs) ∧
  (∃ rs, t.line_replies = s.line_replies ++ rs)

theorem appendOnly_refl (s : DB) : appendOnly s s :=
  ⟨⟨[], (List.append_nil _).symm⟩, ⟨[], (List.append_nil _).symm⟩,
    ⟨[], (List.append_nil _).symm⟩⟩

theorem appendOnly_trans {s t v : DB} (h1 : appendOnly s t) (h2 : appendOnly t v) :
    appendOnly s v := by
  obtain ⟨⟨us1, hu1⟩, ⟨cs1, hc1⟩, ⟨rs1, hr1⟩⟩ := h1
  obtain ⟨⟨us2, hu2⟩, ⟨cs2, hc2⟩, ⟨rs2, hr2⟩⟩ := h2
  exact ⟨⟨us1 ++ us2, by rw [hu2, hu1, List.append_assoc]⟩,
    ⟨cs1 ++ cs2, by rw [hc2, hc1, List.append_assoc]⟩,
    ⟨rs1 ++ rs2, by rw [hr2, hr1, List.append_assoc]⟩⟩

theorem resolveUser_appendOnly (s : DB) (now : DateTime) (profile : Option String)
    (lid : String) : appendOnly s (resolveUser s now profile lid).1 := by
  unfold resolveUser
  cases h : s.users.find? (fun u => u.line_user_id == lid) with
  | some u => exact appendOnly_refl s
  | none =>
      exact ⟨⟨_, rfl⟩, ⟨[], (List.append_nil _).symm⟩, ⟨[], (List.append_nil _).symm⟩⟩

theorem handle_message_appendOnly (s : DB) (now : DateTime) (profile : Option String)
    (sendOk : Bool) (ev : MessageEvent) :
    appendOnly s (handle_message s now profile sendOk ev).db := by
  unfold handle_message
  dsimp only
  split_ifs
  · exact resolveUser_appendOnly s now profile ev.user_id
  · exact resolveUser_appendOnly s now profile ev.user_id
  · refine appendOnly_trans (resolveUser_appendOnly s now profile ev.user_id) ?_
    exact ⟨⟨[], (List.append_nil _).symm⟩, ⟨_, rfl⟩, ⟨[], (List.append_nil _).symm⟩⟩
  · exact resolveUser_appendOnly s now profile ev.user_id

theorem handle_message_db_users (s : DB) (now : DateTime) (profile : Option String)
    (sendOk : Bool) (ev : MessageEvent) :
    (handle_message s now profile sendOk ev).db.users =
      (resolveUser s now profile ev.user_id).1.users := by
  unfold handle_message
  dsimp only
  split_ifs <;> rfl

theorem handle_message_raised (s : DB) (now : DateTime) (profile : Option String)
    (sendOk : Bool) (ev : MessageEvent) :
    (handle_message s now profile sendOk ev).raised = !sendOk := by
  unfold handle_message
  dsimp only
  split_ifs <;> rfl

/-- Claim C1: an inbound webhook text message from a sender with no existing
`User` row makes the handler create exactly one new `User`, named by the
profile lookup when it succeeds and by the constant placeholder `"LINE User"`
when the lookup fails for any reason; and with a working send the webhook
flow does not raise regardless of the profile-lookup outcome. -/
theorem C1_unknown_sender_creates_one_user (s : DB) (now : DateTime)
    (profile : Option String) (sendOk : Bool) (ev : MessageEvent)
    (h : s.users.find? (fun u => u.line_user_id == ev.user_id) = none) :
    (handle_message s now profile sendOk ev).db.users =
      s.users ++ [{ user_id := s.nextUserId, line_user_id := ev.user_id,
                    name := resolveDisplayName profile, created_at := now }] ∧
    (handle_message s now profile true ev).raised = false := by
  constructor
  · rw [handle_message_db_users]
    unfold resolveUser
    rw [h]
  · rw [handle_message_raised]
    rfl

theorem C1_witness :
    (handle_message
        { users := [], checkins := [], line_replies := [],
          nextUserId := 1, nextCheckinId := 1, nextReplyId := 1 }
        ⟨2024, 5, 6, 7, 8, 9⟩ none true
        { user_id := "U1", text := "hello", reply_token := "tok1" }).db.users =
      [] ++ [{ user_id := 1, line_user_id := "U1", name := resolveDisplayName none,
               created_at := ⟨2024, 5, 6, 7, 8, 9⟩ }] ∧
    (handle_message
        { users := [], checkins := [], line_replies := [],
          nextUserId := 1, nextCheckinId := 1, nextReplyId := 1 }
        ⟨2024, 5, 6, 7, 8, 9⟩ none true
        { user_id := "U1", text := "hello", reply_token := "tok1" }).raised = false :=
  C1_unknown_sender_creates_one_user
    { users := [], checkins := [], line_replies := [],
      nextUserId := 1, nextCheckinId := 1, nextReplyId := 1 }
    ⟨2024, 5, 6, 7, 8, 9⟩ none true
    { user_id := "U1", text := "hello", reply_token := "tok1" } rfl

/-- Claim C2: a valid signed webhook text message from a user already in the
directory whose trimmed, case-folded text equals the localized check-in token
inserts exactly one new `Checkin` row for that user and sends exactly one
success reply via the reply token of the event, and `/callback` answers 200 OK. -/
theorem C2_known_user_checkin (s : DB) (now : DateTime) (profile : Option String)
    (sig : String) (ev : MessageEvent) (u : User)
    (hu : s.users.find? (fun x => x.line_user_id == ev.user_id) = some u)
    (ht : normalizeText ev.text = "打卡") :
    callback s now profile true (some sig) true ev =
      { db := { s with
          checkins := s.checkins ++
            [{ checkin_id := s.nextCheckinId, user_id := u.user_id, checkin_time := now }],
          nextCheckinId := s.nextCheckinId + 1 },
        status := .ok200, body := "OK",
        sent := [{ token := ev.reply_token, text := "✅ 你已成功打卡！" }] } := by
  simp only [callback, handle_message, resolveUser, hu, ht]
  rw [if_neg (by decide : ¬(("打卡" : String) = "查詢"))]
  rfl

theorem C2_witness :
    callback
        { users := [{ user_id := 1, line_user_id := "U1", name := "Ann",
                      created_at := ⟨2024, 1, 1, 0, 0, 0⟩ }],
          checkins := [], line_replies := [],
          nextUserId := 2, nextCheckinId := 1, nextReplyId := 1 }
        ⟨2024, 5, 6, 7, 8, 9⟩ none true (some "sig") true
        { user_id := "U1", text := "打卡\u3000", reply_token := "tok2" } =
      { db := { users := [{ user_id := 1, line_user_id := "U1", name := "Ann",
                            created_at := ⟨2024, 1, 1, 0, 0, 0⟩ }],
                checkins := [{ checkin_id := 1, user_id := 1,
                               checkin_time := ⟨2024, 5, 6, 7, 8, 9⟩ }],
                line_replies := [],
                nextUserId := 2, nextCheckinId := 2, nextReplyId := 1 },
        status := .ok200, body := "OK",
        sent := [{ token := "tok2", text := "✅ 你已成功打卡！" }] } :=
  C2_known_user_checkin
    { users := [{ user_id := 1, line_user_id := "U1", name := "Ann",
                  created_at := ⟨2024, 1, 1, 0, 0, 0⟩ }],
      checkins := [], line_replies := [],
      nextUserId := 2, nextCheckinId := 1, nextReplyId := 1 }
    ⟨2024, 5, 6, 7, 8, 9⟩ none "sig"
    { user_id := "U1", text := "打卡\u3000", reply_token := "tok2" }
    { user_id := 1, line_user_id := "U1", name := "Ann",
      created_at := ⟨2024, 1, 1, 0, 0, 0⟩ }
    (by decide) (by decide)

/-- Claim C3: a `POST /callback` with no signature header is rejected with a
400-class response before any processing: no `User` is created, no `Checkin`
is inserted, and no reply is sent. -/
theorem C3_missing_signature_header (s : DB) (now : DateTime) (profile : Option String)
    (sendOk : Bool) (signatureValid : Bool) (ev : MessageEvent) :
    callback s now profile sendOk none signatureValid ev =
      { db := s, status := .badRequest400, body := "", sent := [] } := rfl

/-- Claim C6: a webhook text message from an already-known user whose
normalized text is neither the check-in token nor the query token mutates no
stored state at all; the only effect is the single fixed help-message reply. -/
theorem C6_unknown_command_only_reply (s : DB) (now : DateTime) (profile : Option String)
    (sendOk : Bool) (ev : MessageEvent) (u : User)
    (hu : s.users.find? (fun x => x.line_user_id == ev.user_id) = some u)
    (h1 : normalizeText ev.text ≠ "查詢") (h2 : normalizeText ev.text ≠ "打卡") :
    handle_message s now profile sendOk ev =
      { db := s,
        sent := [{ token := ev.reply_token, text := "請輸入『打卡』或『查詢』來使用服務！" }],
        raised := !sendOk } := by
  simp only [handle_message, resolveUser, hu]
  rw [if_neg h1, if_neg h2]

theorem C6_witness :
    handle_message
        { users := [{ user_id := 1, line_user_id := "U1", name := "Ann",
                      created_at := ⟨2024, 1, 1, 0, 0, 0⟩ }],
          checkins := [], line_replies := [],
          nextUserId := 2, nextCheckinId := 1, nextReplyId := 1 }
        ⟨2024, 5, 6, 7, 8, 9⟩ none true
        { user_id := "U1", text := "hello", reply_token := "tok6" } =
      { db := { users := [{ user_id := 1, line_user_id := "U1", name := "Ann",
                            created_at := ⟨2024, 1, 1, 0, 0, 0⟩ }],
                checkins := [], line_replies := [],
                nextUserId := 2, nextCheckinId := 1, nextReplyId := 1 },
        sent := [{ token := "tok6", text := "請輸入『打卡』或『查詢』來使用服務！" }],
        raised := false } :=
  C6_unknown_command_only_reply
    { users := [{ user_id := 1, line_user_id := "U1", name := "Ann",
                  created_at := ⟨2024, 1, 1, 0, 0, 0⟩ }],
      checkins := [], line_replies := [],
      nextUserId := 2, nextCheckinId := 1, nextReplyId := 1 }
    ⟨2024, 5, 6, 7, 8, 9⟩ none true
    { user_id := "U1", text := "hello", reply_token := "tok6" }
    { user_id := 1, line_user_id := "U1", name := "Ann",
      created_at := ⟨2024, 1, 1, 0, 0, 0⟩ }
    (by decide) (by decide) (by decide)

/-- Claim C4: for a known user, the query command replies with the fixed
no-records text when the user has zero check-ins, and otherwise with the
newline-joined formatted timestamps of exactly the check-ins of the user — one
line per check-in — which are in ascending timestamp order whenever the
rows of the ledger are (as successive inserts stamped with a nondecreasing clock
leave them); the query mutates no state. -/
theorem C4_query_reply (s : DB) (now : DateTime) (profile : Option String)
    (ev : MessageEvent) (u : User)
    (hu : s.users.find? (fun x => x.line_user_id == ev.user_id) = some u)
    (ht : normalizeText ev.text = "查詢")
    (hsort : List.Pairwise dtLe (s.checkins.map Checkin.checkin_time)) :
    (handle_message s now profile true ev).db = s ∧
    (handle_message s now profile true ev).sent =
      [{ token := ev.reply_token,
         text :=
           if s.checkins.filter (fun c => c.user_id == u.user_id) = [] then
             "❌ 你還沒有任何打卡紀錄喔。"
           else
             "📅 你的打卡紀錄：\n" ++ String.intercalate "\n"
               ((s.checkins.filter (fun c => c.user_id == u.user_id)).map
                 (fun c => strftimeYmdHMS c.checkin_time)) }] ∧
    ((s.checkins.filter (fun c => c.user_id == u.user_id)).map
        (fun c => strftimeYmdHMS c.checkin_time)).length =
      (s.checkins.filter (fun c => c.user_id == u.user_id)).length ∧
    List.Pairwise dtLe ((s.checkins.filter (fun c => c.user_id == u.user_id)).map
      Checkin.checkin_time) := by
  have hmsg : handle_message s now profile true ev =
      { db := s,
        sent := [{ token := ev.reply_token,
                   text :=
                     if s.checkins.filter (fun c => c.user_id == u.user_id) = [] then
                       "❌ 你還沒有任何打卡紀錄喔。"
                     else
                       "📅 你的打卡紀錄：\n" ++ String.intercalate "\n"
                         ((s.checkins.filter (fun c => c.user_id == u.user_id)).map
                           (fun c => strftimeYmdHMS c.checkin_time)) }],
        raised := false } := by
    simp only [handle_message, resolveUser, hu, ht]
    rfl
  refine ⟨by rw [hmsg], by rw [hmsg], List.length_map _ _, ?_⟩
  exact hsort.sublist (List.Sublist.map Checkin.checkin_time (List.filter_sublist s.checkins))

theorem C4_witness :
    (handle_message
        { users := [{ user_id := 1, line_user_id := "U1", name := "Ann",
                      created_at := ⟨2024, 1, 1, 0, 0, 0⟩ }],
          checkins := [{ checkin_id := 1, user_id := 1, checkin_time := ⟨2024, 3, 4, 5, 6, 7⟩ },
                       { checkin_id := 2, user_id := 1, checkin_time := ⟨2024, 3, 5, 8, 9, 10⟩ }],
          line_replies := [],
          nextUserId := 2, nextCheckinId := 3, nextReplyId := 1 }
        ⟨2024, 5, 6, 7, 8, 9⟩ none true
        { user_id := "U1", text := " 查詢\u3000", reply_token := "tok4" }).db =
      { users := [{ user_id := 1, line_user_id := "U1", name := "Ann",
                    created_at := ⟨2024, 1, 1, 0, 0, 0⟩ }],
        checkins := [{ checkin_id := 1, user_id := 1, checkin_time := ⟨2024, 3, 4, 5, 6, 7⟩ },
                     { checkin_id := 2, user_id := 1, checkin_time := ⟨2024, 3, 5, 8, 9, 10⟩ }],
        line_replies := [],
        nextUserId := 2, nextCheckinId := 3, nextReplyId := 1 } :=
  (C4_query_reply
    { users := [{ user_id := 1, line_user_id := "U1", name := "Ann",
                  created_at := ⟨2024, 1, 1, 0, 0, 0⟩ }],
      checkins := [{ checkin_id := 1, user_id := 1, checkin_time := ⟨2024, 3, 4, 5, 6, 7⟩ },
                   { checkin_id := 2, user_id := 1, checkin_time := ⟨2024, 3, 5, 8, 9, 10⟩ }],
      line_replies := [],
      nextUserId := 2, nextCheckinId := 3, nextReplyId := 1 }
    ⟨2024, 5, 6, 7, 8, 9⟩ none
    { user_id := "U1", text := " 查詢\u3000", reply_token := "tok4" }
    { user_id := 1, line_user_id := "U1", name := "Ann",
      created_at := ⟨2024, 1, 1, 0, 0, 0⟩ }
    (by decide) (by decide) (by decide)).1

/-- Claim C5 is false on the code: with the signature header present and a
valid signature, a failing `reply_message` call makes `/callback` answer a
500, not 200 OK — there is no try/except around the send. -/
theorem C5_counterexample :
    (callback { users := [], checkins := [], line_replies := [],
                nextUserId := 1, nextCheckinId := 1, nextReplyId := 1 }
        ⟨2024, 5, 6, 7, 8, 9⟩ none false (some "sig") true
        { user_id := "U1", text := "hello", reply_token := "tok5" }).status =
      HttpStatus.serverError500 ∧
    HttpStatus.serverError500 ≠ HttpStatus.ok200 :=
  ⟨rfl, by decide⟩

/-- Claim C5 (amended): a failure of the outbound reply-send call is surfaced
to the HTTP caller as a 500-class response (the exception of the handler
propagates, though the state mutations already committed persist); the
endpoint returns 200 OK exactly when the whole handling, the send included,
succeeds. -/
theorem C5_send_failure_surfaced (s : DB) (now : DateTime) (profile : Option String)
    (sig : String) (ev : MessageEvent) :
    (callback s now profile false (some sig) true ev).status = HttpStatus.serverError500 ∧
    (callback s now profile false (some sig) true ev).db =
      (handle_message s now profile false ev).db ∧
    (callback s now profile true (some sig) true ev).status = HttpStatus.ok200 ∧
    (callback s now profile true (some sig) true ev).body = "OK" := by
  refine ⟨?_, ?_, ?_, ?_⟩ <;>
    simp [callback, handle_message_raised]

/-- Claim C7: registering a `line_user_id` that is not yet present (with
nonempty fields) answers 201 and adds exactly one `User` row; registering the
same `line_user_id` again answers 200 "User already registered" and leaves
the store — in particular the `User` count — unchanged. -/
theorem C7_register_twice (s : DB) (t1 t2 : DateTime) (lid nm nm2 : String)
    (h1 : lid ≠ "") (h2 : nm ≠ "") (h3 : nm2 ≠ "")
    (h0 : s.users.find? (fun u => u.line_user_id == lid) = none) :
    (register_user s t1 (some lid) (some nm)).status = 201 ∧
    (register_user s t1 (some lid) (some nm)).db.users.length = s.users.length + 1 ∧
    register_user (register_user s t1 (some lid) (some nm)).db t2 (some lid) (some nm2) =
      { db := (register_user s t1 (some lid) (some nm)).db, status := 200,
        message := "User already registered" } := by
  have hfirst : register_user s t1 (some lid) (some nm) =
      { db := { s with
          users := s.users ++ [{ user_id := s.nextUserId, line_user_id := lid,
                                 name := nm, created_at := t1 }],
          nextUserId := s.nextUserId + 1 },
        status := 201, message := "User registered successfully" } := by
    simp only [register_user]
    rw [if_neg (by tauto : ¬(lid = "" ∨ nm = "")), h0]
  have hfind : (s.users ++ ([{ user_id := s.nextUserId, line_user_id := lid,
                               name := nm, created_at := t1 }] : List User)).find?
        (fun u => u.line_user_id == lid) =
      some { user_id := s.nextUserId, line_user_id := lid, name := nm, created_at := t1 } := by
    rw [List.find?_append, h0]
    simp
  rw [hfirst]
  refine ⟨rfl, by simp, ?_⟩
  simp only [register_user]
  rw [if_neg (by tauto : ¬(lid = "" ∨ nm2 = ""))]
  rw [hfind]

theorem C7_witness :
    (register_user { users := [], checkins := [], line_replies := [],
                     nextUserId := 1, nextCheckinId := 1, nextReplyId := 1 }
        ⟨2024, 1, 1, 0, 0, 0⟩ (some "U1") (some "Ann")).status = 201 ∧
    (register_user { users := [], checkins := [], line_replies := [],
                     nextUserId := 1, nextCheckinId := 1, nextReplyId := 1 }
        ⟨2024, 1, 1, 0, 0, 0⟩ (some "U1") (some "Ann")).db.users.length = 0 + 1 ∧
    register_user
        (register_user { users := [], checkins := [], line_replies := [],
                         nextUserId := 1, nextCheckinId := 1, nextReplyId := 1 }
          ⟨2024, 1, 1, 0, 0, 0⟩ (some "U1") (some "Ann")).db
        ⟨2024, 1, 2, 0, 0, 0⟩ (some "U1") (some "Bob") =
      { db := (register_user { users := [], checkins := [], line_replies := [],
                               nextUserId := 1, nextCheckinId := 1, nextReplyId := 1 }
                ⟨2024, 1, 1, 0, 0, 0⟩ (some "U1") (some "Ann")).db,
        status := 200, message := "User already registered" } :=
  C7_register_twice
    { users := [], checkins := [], line_replies := [],
      nextUserId := 1, nextCheckinId := 1, nextReplyId := 1 }
    ⟨2024, 1, 1, 0, 0, 0⟩ ⟨2024, 1, 2, 0, 0, 0⟩ "U1" "Ann" "Bob"
    (by decide) (by decide) (by decide) (by decide)

/-- Claim C8: `POST /api/checkin` for a `line_user_id` with no `User` row
answers 404 "User not found", inserts no `Checkin`, and leaves the whole
store unchanged. -/
theorem C8_checkin_unknown_user (s : DB) (now : DateTime) (lid : String)
    (h : s.users.find? (fun u => u.line_user_id == lid) = none) :
    checkin s now (some lid) = { db := s, status := 404, message := "User not found" } := by
  simp only [checkin, h]

theorem C8_witness :
    checkin { users := [], checkins := [], line_replies := [],
              nextUserId := 1, nextCheckinId := 1, nextReplyId := 1 }
        ⟨2024, 1, 1, 0, 0, 0⟩ (some "U9") =
      { db := { users := [], checkins := [], line_replies := [],
                nextUserId := 1, nextCheckinId := 1, nextReplyId := 1 },
        status := 404, message := "User not found" } :=
  C8_checkin_unknown_user
    { users := [], checkins := [], line_replies := [],
      nextUserId := 1, nextCheckinId := 1, nextReplyId := 1 }
    ⟨2024, 1, 1, 0, 0, 0⟩ "U9" (by decide)

/-- Claim C9: every operation of the system is append-only on the stored
rows: each endpoint and the whole webhook flow either leaves each table
unchanged or extends it at the end; no existing `User`, `Checkin` or
`LineReply` row is updated in place or deleted. -/
theorem C9_append_only (s : DB) (now : DateTime) (lid nm msg : Option String)
    (uid : Option Nat) (uidN : Nat) (profile : Option String) (sendOk : Bool)
    (sigHeader : Option String) (sigValid : Bool) (ev : MessageEvent) :
    appendOnly s (checkin s now lid).db ∧
    appendOnly s (get_checkins s uidN).db ∧
    appendOnly s (line_reply s now uid msg).db ∧
    appendOnly s (register_user s now lid nm).db ∧
    appendOnly s (get_users s).db ∧
    appendOnly s (callback s now profile sendOk sigHeader sigValid ev).db := by
  refine ⟨?_, appendOnly_refl s, ?_, ?_, appendOnly_refl s, ?_⟩
  · unfold checkin
    cases lid with
    | none => exact appendOnly_refl s
    | some l =>
        dsimp only
        cases h : s.users.find? (fun u => u.line_user_id == l) with
        | none => exact appendOnly_refl s
        | some u =>
            exact ⟨⟨[], (List.append_nil _).symm⟩, ⟨_, rfl⟩, ⟨[], (List.append_nil _).symm⟩⟩
  · unfold line_reply
    cases h : s.users.find? (fun u => match uid with | some i => u.user_id == i | none => false) with
    | none => exact appendOnly_refl s
    | some u =>
        cases msg with
        | some m =>
            exact ⟨⟨[], (List.append_nil _).symm⟩, ⟨[], (List.append_nil _).symm⟩, ⟨_, rfl⟩⟩
        | none => exact appendOnly_refl s
  · unfold register_user
    cases lid with
    | none => exact appendOnly_refl s
    | some l =>
        cases nm with
        | none => exact appendOnly_refl s
        | some n =>
            dsimp only
            split_ifs
            · exact appendOnly_refl s
            · cases h : s.users.find? (fun u => u.line_user_id == l) with
              | some u => exact appendOnly_refl s
              | none =>
                  exact ⟨⟨_, rfl⟩, ⟨[], (List.append_nil _).symm⟩, ⟨[], (List.append_nil _).symm⟩⟩
  · unfold callback
    cases sigHeader with
    | none => exact appendOnly_refl s
    | some sg =>
        cases sigValid with
        | false => exact appendOnly_refl s
        | true =>
            dsimp only
            cases hr : (handle_message s now profile sendOk ev).raised with
            | false => exact handle_message_appendOnly s now profile sendOk ev
            | true => exact handle_message_appendOnly s now profile sendOk ev

/-- Claim C10: `GET /api/checkins/{user_id}` answers 200 for every id —
also when no `User` row has that id — with the possibly empty list of that
check-ins of that user; it never answers 404 and it changes nothing. -/
theorem C10_get_checkins_always_200 (s : DB) (uid : Nat) :
    (get_checkins s uid).status = 200 ∧
    (get_checkins s uid).status ≠ 404 ∧
    (get_checkins s uid).db = s ∧
    (get_checkins s uid).checkins =
      (s.checkins.filter (fun c => c.user_id == uid)).map
        (fun c => (c.checkin_id, isoformat c.checkin_time)) :=
  ⟨rfl, (by decide : (200 : Nat) ≠ 404), rfl, rfl⟩
